import Mathlib

/-!
Verification of the controlbox object/container/value core of
elcojacobs/particle-firmware, shallowly embedded from
src/controlbox/src/lib/Values.h and src/app/cbox/blox/SysInfoBlock.h.

Machine integers are modelled as Nat with explicit reduction where overflow
matters: object_flags_t is uint8_t (values below 256), container_id is int8_t
(modelled as Int where sign matters), eptr_t is a 16-bit storage offset.
-/

namespace Cbox

/-! ## Capability flags (Values.h, ObjectFlags::Enum, lines 40-51) -/

namespace ObjectFlags

def Object : Nat := 0

def Value : Nat := 4

def Container : Nat := 8

def WritableFlag : Nat := 1

def hasStateFlag : Nat := 2

def OpenContainerFlag : Nat := 1

def NotLogged : Nat := 16

def StaticlyAllocated : Nat := 32

end ObjectFlags

/-- Values.h line 78: `Object::objectFlags()` returns `ObjectFlags::Object`. -/
def Object_objectFlags : Nat := ObjectFlags.Object

/-- Values.h line 205: `Value::objectFlags()` returns
`Object::objectFlags() | ObjectFlags::Value`. -/
def Value_objectFlags : Nat := Object_objectFlags ||| ObjectFlags.Value

/-- Values.h line 213: `WritableValue::objectFlags()` returns
`Value::objectFlags() | ObjectFlags::WritableFlag`. -/
def WritableValue_objectFlags : Nat := Value_objectFlags ||| ObjectFlags.WritableFlag

/-- Values.h line 116: `Container::objectFlags()` returns
`Object::objectFlags() | ObjectFlags::Container`. -/
def Container_objectFlags : Nat := Object_objectFlags ||| ObjectFlags.Container

/-- Values.h line 167: `OpenContainer::objectFlags()` returns
`Container::objectFlags() | ObjectFlags::OpenContainerFlag`. -/
def OpenContainer_objectFlags : Nat := Container_objectFlags ||| ObjectFlags.OpenContainerFlag

/-- Values.h lines 291-293: `hasFlags(value, flags)` is `(value & flags) == flags`. -/
def hasFlags (value flags : Nat) : Bool := (value &&& flags) == flags

/-!
A C++ `Object*` is modelled as `Option Nat`: `none` is the NULL pointer and
`some f` is a non-null object whose virtual `objectFlags()` call returns `f`.
The free predicates of Values.h lines 295-323 first test the pointer for NULL
and then test bits of the flags value.
-/

/-- Values.h lines 295-298: `isContainer`. -/
def isContainer : Option Nat → Bool
  | none => false
  | some f => hasFlags f ObjectFlags.Container

/-- Values.h lines 300-303: `isOpenContainer`. -/
def isOpenContainer : Option Nat → Bool
  | none => false
  | some f => hasFlags f (ObjectFlags.Container ||| ObjectFlags.OpenContainerFlag)

/-- Values.h lines 305-308: `isValue`. -/
def isValue : Option Nat → Bool
  | none => false
  | some f => hasFlags f ObjectFlags.Value

/-- Values.h lines 310-313: `isLoggedValue`. -/
def isLoggedValue : Option Nat → Bool
  | none => false
  | some f => (f &&& (ObjectFlags.Value ||| ObjectFlags.NotLogged)) == ObjectFlags.Value

/-- Values.h lines 315-318: `isDynamicallyAllocated`. -/
def isDynamicallyAllocated : Option Nat → Bool
  | none => false
  | some f => (f &&& ObjectFlags.StaticlyAllocated) == 0

/-- Values.h lines 320-323: `isWritable`. -/
def isWritable : Option Nat → Bool
  | none => false
  | some f => hasFlags f ObjectFlags.WritableFlag

/-! ## SysInfoBlock (SysInfoBlock.h) -/

/-- The result codes of the streaming API used by SysInfoBlock.h; only the two
codes that appear in the excerpt are enumerated. -/
inductive CboxError where
  | OK : CboxError
  | OBJECT_NOT_WRITABLE : CboxError
deriving DecidableEq

/-- A `DataIn` byte stream, reduced to its observable content: the sequence of
bytes remaining to be read. -/
def DataIn : Type := List Nat

/-- SysInfoBlock has no data members of its own in the excerpt; its observable
state is empty. -/
def SysInfoState : Type := Unit

/-- SysInfoBlock.h lines 43-46: `streamFrom` returns
`CboxError::OBJECT_NOT_WRITABLE` without touching the object or the stream.
The result is the returned code together with the object state and the stream
after the call. -/
def SysInfoBlock_streamFrom (s : SysInfoState) (dataIn : DataIn) :
    CboxError × SysInfoState × DataIn :=
  (CboxError.OBJECT_NOT_WRITABLE, s, dataIn)

/-! ## EepromAware values (Values.h lines 221-251)

EepromAwareValue and EepromAwareWritableValue carry textually identical
address code (the repetition avoids multiple inheritance, Values.h line 237);
one state model captures both. eptr_t is a 16-bit unsigned storage offset, so
arithmetic on it reduces modulo 2 to the 16. -/

def eptrMod : Nat := 65536

/-- The single data member of an EepromAware value: the eptr_t field
`address` of Values.h lines 223 and 241. -/
structure EAState where
  address : Nat
deriving DecidableEq

/-- Values.h lines 223/241: the address field is initialised to -1, which as
an eptr_t is 65535. -/
def eaInit : EAState := { address := eptrMod - 1 }

/-- The operations a caller can invoke on an EepromAwareValue or
EepromAwareWritableValue that may touch its state: `rehydrated` (Values.h
lines 226-228 and 244-246) stores the given address; `prepare` and `update`
inherit the no-op bodies of Object (Values.h lines 99, 104). The const reads
eeprom_offset and eepromSize do not appear since they cannot change state. -/
inductive EAOp where
  | rehydrated (a : Nat) : EAOp
  | prepare : EAOp
  | update : EAOp

/-- True exactly on `rehydrated` operations. -/
def EAOp.isRehydrate : EAOp → Bool
  | .rehydrated _ => true
  | .prepare => false
  | .update => false

/-- One operation applied to the state: only `rehydrated` writes the address
field (Values.h lines 226-228, 244-246). -/
def eaStep (s : EAState) : EAOp → EAState
  | .rehydrated a => { address := a % eptrMod }
  | .prepare => s
  | .update => s

/-- A sequence of operations applied in order. -/
def eaRun (s : EAState) (ops : List EAOp) : EAState := ops.foldl eaStep s

/-- Values.h lines 230/248: `eeprom_offset()` returns the address field. -/
def eeprom_offset (s : EAState) : Nat := s.address

/-- Values.h lines 231/249: `eepromSize()` returns
`eepromAccess.readByte(address - 1)`; the storage collaborator is a map from
absolute offsets to bytes, and the uint16 subtraction wraps modulo 2^16. -/
def eepromSize (eepromAccess : Nat → Nat) (s : EAState) : Nat :=
  eepromAccess ((s.address + (eptrMod - 1)) % eptrMod)

/-! ## Objects and containers as a tree

For the container and resolution claims an object is either a leaf value or
an open container holding a list of slots, each slot empty or holding a child
object. This instantiates the Object/Value/Container lattice of Values.h for
the shapes the claims quantify over. -/

inductive Obj : Type where
  | value : Obj
  | openContainer (slots : List (Option Obj)) : Obj

/-- The objectFlags() virtual dispatch on the tree: a leaf reports the Value
layer flags (Values.h line 205), a container the OpenContainer layer flags
(Values.h line 167). -/
def Obj.objectFlags : Obj → Nat
  | .value => Value_objectFlags
  | .openContainer _ => OpenContainer_objectFlags

/-- `isContainer` of Values.h lines 295-298 applied to a non-null tree
object. -/
def objIsContainer (o : Obj) : Bool := isContainer (some o.objectFlags)

/-- Modelled from the spec: the concrete slot-backed container implementation
is not under src/, only the Container interface of Values.h lines 114-143.
Spec section 4.5 fixes its item contract: the object at id, or null if out of
range or the slot is empty. container_id is a signed int8_t, so negative ids
are out of range. -/
def contItem (slots : List (Option Obj)) (id : Int) : Option Obj :=
  if 0 ≤ id ∧ id < (slots.length : Int) then slots.getD id.toNat none else none

/-- Modelled from the spec: `Container.item` on a slot-backed container
returns the slot content and leaves the slot state unchanged (spec section
4.5: the container keeps objects resident). The pair is (result, state after
the call). -/
def Container_item (slots : List (Option Obj)) (id : Int) :
    Option Obj × List (Option Obj) := (contItem slots id, slots)

/-- Values.h line 134: the default `Container::returnItem` does nothing. -/
def Container_returnItem (slots : List (Option Obj)) (_id : Int)
    (_item : Option Obj) : List (Option Obj) := slots

/-- Modelled from the spec: `Container.size` of a slot-backed container is
the number of slots (spec section 4.5: exclusive upper bound on valid ids). -/
def Container_size (slots : List (Option Obj)) : Int := slots.length

/-! ## FactoryContainer (Values.h lines 149-158)

Object identity and destruction live in a heap: `next` is the next fresh
instance id handed out by new_object, and `live` is the list of instance ids
currently allocated. Constructing an object yields an id never used before,
so two distinct constructions are never the same instance. -/

structure Heap where
  next : Nat
  live : List Nat
deriving DecidableEq

/-- Allocation, the new_object hook of Values.h line 62: returns a fresh
instance id and the grown heap. -/
def new_object (h : Heap) : Nat × Heap :=
  (h.next, { next := h.next + 1, live := h.next :: h.live })

/-- Destruction, the delete_object hook of Values.h line 59: the instance id
stops being live. -/
def delete_object (h : Heap) (p : Nat) : Heap :=
  { next := h.next, live := h.live.filter (fun q => q ≠ p) }

/-- Modelled from the spec: `FactoryContainer.item` constructs its result
fresh on each call (spec section 4.5; the concrete factory item
implementations are not under src/). Returns the borrowed instance id and
the heap after the call. -/
def FactoryContainer_item (h : Heap) (_id : Int) : Nat × Heap := new_object h

/-- Values.h lines 155-157: `FactoryContainer::returnItem` deletes the passed
item. -/
def FactoryContainer_returnItem (h : Heap) (_id : Int) (item : Nat) : Heap :=
  delete_object h item

/-! ## Id-chain resolution (Values.h lines 351-354) -/

/-- Values.h line 108. -/
def MAX_CONTAINER_DEPTH : Nat := 3

/-- item() dispatched through the tree: a container answers from its slots,
anything else is not queried (the resolver only calls item on containers). -/
def itemOf : Obj → Int → Option Obj
  | .value, _ => none
  | .openContainer slots, id => contItem slots id

/-- Modelled from the spec: the body of `lookupObject` (declared at Values.h
line 354) is not under src/. Spec section 4.6: at each level call item with
the next id on the current container; if ids remain the retrieved object must
itself satisfy isContainer, else resolution fails; depth is bounded by
MAX_CONTAINER_DEPTH, and every failure is reported as a null object (`none`),
never as an exception. `fuel` is the remaining depth budget. -/
def lookupObjectChain : Nat → Obj → List Int → Option Obj
  | _, current, [] => some current
  | 0, _, _ :: _ => none
  | fuel + 1, current, id :: rest =>
    if objIsContainer current then
      match itemOf current id with
      | none => none
      | some o => lookupObjectChain fuel o rest
    else none

/-- Resolution of an id chain from a root container with the depth budget
MAX_CONTAINER_DEPTH. -/
def lookupObject (root : Obj) (chain : List Int) : Option Obj :=
  lookupObjectChain MAX_CONTAINER_DEPTH root chain

/-- The step failures named by the specification, with no depth bound: an id
that item answers with null (out of range or empty slot), or a non-container
object reached while ids remain in the chain. -/
def stepFails : Obj → List Int → Bool
  | _, [] => false
  | current, id :: rest =>
    if objIsContainer current then
      match itemOf current id with
      | none => true
      | some o => stepFails o rest
    else true

/-- The object an id chain addresses, by plain slot-following with no depth
bound: the reference the resolution is compared against. -/
def addressedObject : Obj → List Int → Option Obj
  | current, [] => some current
  | current, id :: rest =>
    if objIsContainer current then
      match itemOf current id with
      | none => none
      | some o => addressedObject o rest
    else none

/-- The container tree of spec section 8: a leaf value installed at slot 2 of
a child OpenContainer. -/
def exampleChild : Obj := Obj.openContainer [none, none, some Obj.value]

/-- The container tree of spec section 8: a root container of size 3 with the
child OpenContainer installed at slot 1. -/
def exampleRoot : Obj := Obj.openContainer [none, some exampleChild, none]

/-! ## Helper lemmas -/

/-- Operation sequences without a rehydrated call never change the address. -/
theorem eaRun_address_of_no_rehydrate (ops : List EAOp) :
    ∀ s : EAState, ops.all (fun op => !op.isRehydrate) = true →
      (eaRun s ops).address = s.address := by
  induction ops with
  | nil => intro s _; rfl
  | cons op rest ih =>
    intro s hall
    rw [List.all_cons, Bool.and_eq_true] at hall
    have hstep : (eaStep s op).address = s.address := by
      cases op with
      | rehydrated a => simp [EAOp.isRehydrate] at hall
      | prepare => rfl
      | update => rfl
    calc (eaRun s (op :: rest)).address
        = (eaRun (eaStep s op) rest).address := rfl
      _ = (eaStep s op).address := ih (eaStep s op) hall.2
      _ = s.address := hstep

/-- Exhausted fuel forces resolution to fail. -/
theorem lookupObjectChain_none_of_lt (chain : List Int) :
    ∀ fuel : Nat, ∀ current : Obj, fuel < chain.length →
      lookupObjectChain fuel current chain = none := by
  induction chain with
  | nil => intro fuel current hlt; exact absurd hlt (by simp)
  | cons id rest ih =>
    intro fuel current hlt
    match fuel with
    | 0 => rfl
    | fuel + 1 =>
      show lookupObjectChain (fuel + 1) current (id :: rest) = none
      unfold lookupObjectChain
      by_cases hc : objIsContainer current = true
      · rw [if_pos hc]
        cases hitem : itemOf current id with
        | none => rfl
        | some o =>
          exact ih fuel o (by simpa using Nat.lt_of_succ_lt_succ hlt)
      · rw [if_neg hc]

/-- With enough fuel, resolution agrees with plain slot-following. -/
theorem lookupObjectChain_eq_addressed (chain : List Int) :
    ∀ fuel : Nat, ∀ current : Obj, chain.length ≤ fuel →
      lookupObjectChain fuel current chain = addressedObject current chain := by
  induction chain with
  | nil => intro fuel current _; cases fuel <;> rfl
  | cons id rest ih =>
    intro fuel current hle
    match fuel with
    | 0 => exact absurd hle (by simp)
    | fuel + 1 =>
      show lookupObjectChain (fuel + 1) current (id :: rest)
          = addressedObject current (id :: rest)
      unfold lookupObjectChain addressedObject
      by_cases hc : objIsContainer current = true
      · rw [if_pos hc, if_pos hc]
        cases hitem : itemOf current id with
        | none => rfl
        | some o => exact ih fuel o (by simpa using Nat.le_of_succ_le_succ hle)
      · rw [if_neg hc, if_neg hc]

/-- Plain slot-following fails exactly on the step failures. -/
theorem addressedObject_none_iff (chain : List Int) :
    ∀ current : Obj,
      addressedObject current chain = none ↔ stepFails current chain = true := by
  induction chain with
  | nil => intro current; simp [addressedObject, stepFails]
  | cons id rest ih =>
    intro current
    unfold addressedObject stepFails
    by_cases hc : objIsContainer current = true
    · rw [if_pos hc, if_pos hc]
      cases hitem : itemOf current id with
      | none => simp
      | some o => exact ih o
    · rw [if_neg hc, if_neg hc]
      simp

/-! ## Theorems for the flag claims -/

set_option maxRecDepth 4096 in
/-- C1: For every non-null object with flags value f (a uint8_t, so f < 256),
isContainer holds iff the Container bit (bit 3, value 8) is set;
isOpenContainer holds iff both the Container bit and the OpenContainer bit
(bit 0, value 1) are set; and isLoggedValue holds iff the Value bit (bit 2,
value 4) is set and the NotLogged bit (bit 4, value 16) is clear. -/
theorem flag_predicates_bit_tests (f : Nat) (hf : f < 256) :
    (isContainer (some f) = true ↔ f.testBit 3 = true)
    ∧ (isOpenContainer (some f) = true ↔ (f.testBit 3 = true ∧ f.testBit 0 = true))
    ∧ (isLoggedValue (some f) = true ↔ (f.testBit 2 = true ∧ f.testBit 4 = false)) := by
  revert f
  decide

/-- Witness for C1 at the concrete flags value 9 (Container | OpenContainerFlag). -/
theorem flag_predicates_bit_tests_witness :
    (isContainer (some 9) = true ↔ Nat.testBit 9 3 = true)
    ∧ (isOpenContainer (some 9) = true ↔ (Nat.testBit 9 3 = true ∧ Nat.testBit 9 0 = true))
    ∧ (isLoggedValue (some 9) = true ↔ (Nat.testBit 9 2 = true ∧ Nat.testBit 9 4 = false)) :=
  flag_predicates_bit_tests 9 (by decide)

/-- C2: each derived capability layer reports the bitwise OR of its base layer
flags with its own new bits, and the resulting concrete values are
Value = 4, WritableValue = 5, Container = 8, OpenContainer = 9. -/
theorem objectFlags_composition :
    Value_objectFlags = (Object_objectFlags ||| ObjectFlags.Value)
    ∧ WritableValue_objectFlags = (Value_objectFlags ||| ObjectFlags.WritableFlag)
    ∧ Container_objectFlags = (Object_objectFlags ||| ObjectFlags.Container)
    ∧ OpenContainer_objectFlags = (Container_objectFlags ||| ObjectFlags.OpenContainerFlag)
    ∧ Value_objectFlags = 4
    ∧ WritableValue_objectFlags = 5
    ∧ Container_objectFlags = 8
    ∧ OpenContainer_objectFlags = 9 := by
  decide

/-- C9: SysInfoBlock.streamFrom returns the OBJECT_NOT_WRITABLE code for every
object state and every input stream, and leaves both unchanged. -/
theorem sysInfoBlock_streamFrom_not_writable (s : SysInfoState) (dataIn : DataIn) :
    SysInfoBlock_streamFrom s dataIn = (CboxError.OBJECT_NOT_WRITABLE, s, dataIn) :=
  rfl

/-- C10: WritableFlag and OpenContainerFlag share the bit value 1, so the
default OpenContainer flags value 9 satisfies isWritable while satisfying
neither isValue nor reporting the WritableValue flags. -/
theorem openContainer_isWritable_aliasing :
    ObjectFlags.WritableFlag = ObjectFlags.OpenContainerFlag
    ∧ OpenContainer_objectFlags = 9
    ∧ isWritable (some OpenContainer_objectFlags) = true
    ∧ isValue (some OpenContainer_objectFlags) = false
    ∧ OpenContainer_objectFlags ≠ WritableValue_objectFlags := by
  decide

/-- C3: id-chain resolution from a root returns none (the null object, no
exception possible) exactly when the chain is longer than
MAX_CONTAINER_DEPTH, an id is answered with null by the current container
(out of range), or a non-container is reached while ids remain; in every
other case it returns the object the chain addresses. -/
theorem lookupObject_fails_exactly (root : Obj) (chain : List Int) :
    (lookupObject root chain = none ↔
      (MAX_CONTAINER_DEPTH < chain.length ∨ stepFails root chain = true))
    ∧ (chain.length ≤ MAX_CONTAINER_DEPTH → stepFails root chain = false →
      lookupObject root chain = addressedObject root chain
      ∧ (addressedObject root chain).isSome = true) := by
  constructor
  · by_cases hd : MAX_CONTAINER_DEPTH < chain.length
    · have hnone := lookupObjectChain_none_of_lt chain MAX_CONTAINER_DEPTH root hd
      show lookupObjectChain MAX_CONTAINER_DEPTH root chain = none ↔ _
      rw [hnone]
      simp [hd]
    · have hle : chain.length ≤ MAX_CONTAINER_DEPTH := Nat.le_of_not_lt hd
      have heq := lookupObjectChain_eq_addressed chain MAX_CONTAINER_DEPTH root hle
      show lookupObjectChain MAX_CONTAINER_DEPTH root chain = none ↔ _
      rw [heq, addressedObject_none_iff chain root]
      simp [hd]
  · intro hle hsf
    have heq := lookupObjectChain_eq_addressed chain MAX_CONTAINER_DEPTH root hle
    refine ⟨heq, ?_⟩
    cases hsome : addressedObject root chain with
    | none =>
      have := (addressedObject_none_iff chain root).mp hsome
      rw [hsf] at this
      cases this
    | some o => rfl

/-- Witness for C3: on the spec example tree (root of size 3, child
OpenContainer at slot 1, leaf at slot 2 of the child), the chain [1, 2]
resolves with no failure to the addressed leaf. -/
theorem lookupObject_fails_exactly_witness :
    lookupObject exampleRoot [1, 2] = addressedObject exampleRoot [1, 2]
    ∧ (addressedObject exampleRoot [1, 2]).isSome = true :=
  (lookupObject_fails_exactly exampleRoot [1, 2]).2 (by decide) (by decide)

/-- C5: a borrow cycle on a FactoryContainer destroys the returned item
(it is no longer live after returnItem), and a second item() call for the
same id never yields the instance returned by the first call. -/
theorem factory_borrow_never_same_instance (h : Heap) (id : Int) :
    (FactoryContainer_item h id).1 ∉
      (FactoryContainer_returnItem (FactoryContainer_item h id).2 id
        (FactoryContainer_item h id).1).live
    ∧ (FactoryContainer_item
        (FactoryContainer_returnItem (FactoryContainer_item h id).2 id
          (FactoryContainer_item h id).1) id).1 ≠ (FactoryContainer_item h id).1 := by
  constructor
  · intro hmem
    rw [show (FactoryContainer_returnItem (FactoryContainer_item h id).2 id
          (FactoryContainer_item h id).1).live
        = (h.next :: h.live).filter (fun q => q ≠ h.next) from rfl] at hmem
    rcases List.mem_filter.mp hmem with ⟨_, hq⟩
    rw [decide_eq_true_iff] at hq
    exact hq rfl
  · show h.next + 1 ≠ h.next
    omega

/-- C7: on a slot-backed container, item(id) for a valid id followed by
returnItem(id, result) leaves the slot state, the result of item at any
other index j, and size() unchanged. -/
theorem item_returnItem_frame (slots : List (Option Obj)) (id j : Int)
    (_h1 : 0 ≤ id) (_h2 : id < Container_size slots) :
    Container_returnItem (Container_item slots id).2 id (Container_item slots id).1 = slots
    ∧ (Container_item (Container_returnItem (Container_item slots id).2 id
        (Container_item slots id).1) j).1 = (Container_item slots j).1
    ∧ Container_size (Container_returnItem (Container_item slots id).2 id
        (Container_item slots id).1) = Container_size slots :=
  ⟨rfl, rfl, rfl⟩

/-- Witness for C7 on a three-slot container at id 1, probing index 2. -/
theorem item_returnItem_frame_witness :
    Container_returnItem (Container_item [none, some Obj.value, none] 1).2 1
      (Container_item [none, some Obj.value, none] 1).1 = [none, some Obj.value, none]
    ∧ (Container_item (Container_returnItem (Container_item [none, some Obj.value, none] 1).2 1
        (Container_item [none, some Obj.value, none] 1).1) 2).1
      = (Container_item [none, some Obj.value, none] 2).1
    ∧ Container_size (Container_returnItem (Container_item [none, some Obj.value, none] 1).2 1
        (Container_item [none, some Obj.value, none] 1).1)
      = Container_size [none, some Obj.value, none] :=
  item_returnItem_frame [none, some Obj.value, none] 1 2 (by decide) (by decide)

/-- C8: on a slot-backed container, item(id) returns null whenever id is
negative or at least size(). -/
theorem item_out_of_range_null (slots : List (Option Obj)) (id : Int)
    (h : id < 0 ∨ Container_size slots ≤ id) :
    (Container_item slots id).1 = none := by
  have hneg : ¬(0 ≤ id ∧ id < (slots.length : Int)) := by
    unfold Container_size at h
    omega
  show contItem slots id = none
  unfold contItem
  exact if_neg hneg

/-- Witness for C8: item(9) on a container of size 3 returns null. -/
theorem item_out_of_range_null_witness :
    (Container_item [none, some Obj.value, none] 9).1 = none :=
  item_out_of_range_null [none, some Obj.value, none] 9 (by decide)

/-- C4 counterexample: the claim that after rehydrated(a) every subsequent
operation sequence leaves eeprom_offset() equal to a is false at the concrete
input a = 1 followed by the operation sequence [rehydrated 2]: the address
field is overwritten and eeprom_offset returns 2, not 1. -/
theorem rehydrated_not_immutable_counterexample :
    eeprom_offset (eaRun (eaStep eaInit (EAOp.rehydrated 1)) [EAOp.rehydrated 2]) ≠ 1 := by
  decide

/-- C4 amended: after rehydrated(a) with a in eptr_t range, eeprom_offset()
returns a after every subsequent sequence of operations that contains no
further rehydrated call. -/
theorem rehydrated_offset_fixed (s : EAState) (a : Nat) (ops : List EAOp)
    (ha : a < eptrMod) (hops : ops.all (fun op => !op.isRehydrate) = true) :
    eeprom_offset (eaRun (eaStep s (EAOp.rehydrated a)) ops) = a := by
  unfold eeprom_offset
  rw [eaRun_address_of_no_rehydrate ops (eaStep s (EAOp.rehydrated a)) hops]
  show a % eptrMod = a
  exact Nat.mod_eq_of_lt ha

/-- Witness for C4 amended: rehydrated(101) followed by a prepare/update cycle
leaves eeprom_offset() at 101. -/
theorem rehydrated_offset_fixed_witness :
    eeprom_offset (eaRun (eaStep eaInit (EAOp.rehydrated 101))
      [EAOp.prepare, EAOp.update]) = 101 :=
  rehydrated_offset_fixed eaInit 101 [EAOp.prepare, EAOp.update] (by decide) (by decide)

/-- C6: after the address has been set to a (with 1 <= a < 2^16) by
rehydrated, eepromSize() returns exactly the byte the storage collaborator
holds at offset a - 1. -/
theorem eepromSize_reads_length_prefix (eepromAccess : Nat → Nat) (s : EAState)
    (a : Nat) (h1 : 1 ≤ a) (h2 : a < eptrMod) :
    eepromSize eepromAccess (eaStep s (EAOp.rehydrated a)) = eepromAccess (a - 1) := by
  unfold eepromSize eaStep
  have hmod : (a % eptrMod + (eptrMod - 1)) % eptrMod = a - 1 := by
    rw [Nat.mod_eq_of_lt h2]
    show (a + (65536 - 1)) % 65536 = a - 1
    have ha : a < 65536 := h2
    omega
  rw [hmod]

/-- Witness for C6: with length byte 5 stored at offset 100 and the address
set to 101, eepromSize() returns 5. -/
theorem eepromSize_reads_length_prefix_witness :
    eepromSize (fun off => if off = 100 then 5 else 0)
      (eaStep eaInit (EAOp.rehydrated 101)) = 5 :=
  eepromSize_reads_length_prefix (fun off => if off = 100 then 5 else 0)
    eaInit 101 (by decide) (by decide)

end Cbox
